import Mathlib

/-!
Verification of the FrogPilot/openpilot process manager
(`selfdrive/manager/manager.py`): the supervisor loop, lifecycle
orchestration (`main`, `manager_init`, `manager_cleanup`), the config-store
interactions, and the Reconciler contract.

Events that the python code performs against external collaborators
(config store, message bus, process wrappers, host hardware) are modelled
as explicit event lists in program order; store-valued steps are modelled
as transformations of an association-list store.
-/

namespace Manager

/-- Param key categories used by `manager.py` (the `ParamKeyType` values of
`common/params`, consumed through `clear_all`). -/
inductive ParamKeyType where
  | CLEAR_ON_MANAGER_START
  | CLEAR_ON_ONROAD_TRANSITION
  | CLEAR_ON_OFFROAD_TRANSITION
  | DEVELOPMENT_ONLY
  deriving DecidableEq

/-- Shutdown-intent flags read from the config store each tick:
`DoUninstall`, `DoShutdown`, `DoReboot` (manager.py line 334). -/
structure Flags where
  doUninstall : Bool
  doShutdown : Bool
  doReboot : Bool
  deriving DecidableEq

/-- Observable actions of the supervisor loop, in program order. -/
inductive Event where
  | clearAll (c : ParamKeyType)
  | writeOnroadParams (started : Bool)
  | ensureRunning (started : Bool)
  | sendManagerState
  | putParam (k v : String)
  deriving DecidableEq

/-- Edge-triggered side effects of one tick (manager.py lines 309-316): a
rising edge clears the onroad-transition category, a falling edge clears
the offroad-transition category, and either edge rewrites the onroad
params consumed by boardd's safety setter. -/
def transitionEvents (startedPrev started : Bool) : List Event :=
  (if started && !startedPrev then
    [Event.clearAll ParamKeyType.CLEAR_ON_ONROAD_TRANSITION]
  else if !started && startedPrev then
    [Event.clearAll ParamKeyType.CLEAR_ON_OFFROAD_TRANSITION]
  else [])
  ++ (if started != startedPrev then [Event.writeOnroadParams started] else [])

/-- Fixed iteration order of the shutdown-flag check (manager.py line 334),
pairing each flag name with its value as read from the config store. -/
def flagList (f : Flags) : List (String × Bool) :=
  [("DoUninstall", f.doUninstall), ("DoShutdown", f.doShutdown), ("DoReboot", f.doReboot)]

/-- Writes of the shutdown-flag check (manager.py lines 333-338): for each
flag that reads true, in check order, `LastManagerExitReason` is written
with the flag name followed by the current timestamp. -/
def shutdownEvents (f : Flags) (now : String) : List Event :=
  (flagList f).filterMap fun nb =>
    if nb.2 then some (Event.putParam "LastManagerExitReason" (nb.1 ++ " " ++ now)) else none

/-- Loop-exit decision of the shutdown-flag check (manager.py lines
333-341): `shutdown` ends true exactly when some flag read true. -/
def anyShutdownFlag (f : Flags) : Bool :=
  (flagList f).any fun nb => nb.2

/-- Names of the flags that read true, in check order. -/
def setFlagNames (f : Flags) : List String :=
  (flagList f).filterMap fun nb => if nb.2 then some nb.1 else none

/-- External inputs consumed by one tick: the polled `started` signal, the
shutdown flags as read from the config store this tick, and the wall-clock
timestamp used in the exit-reason write. -/
structure TickInput where
  started : Bool
  flags : Flags
  now : String

/-- One tick of the supervisor loop (manager.py lines 304-341) as the list
of its observable actions in program order: edge-triggered transition side
effects, then the `ensure_running` call, then the `managerState` health
emission, then the shutdown-flag check. -/
def tickEvents (startedPrev : Bool) (i : TickInput) : List Event :=
  transitionEvents startedPrev i.started
    ++ [Event.ensureRunning i.started, Event.sendManagerState]
    ++ shutdownEvents i.flags i.now

/-- Supervisor loop (manager.py lines 304-341) over a stream of tick
inputs: each tick appends its events, `started_prev` is carried forward,
and the loop breaks at the end of the tick in which a shutdown flag was
seen (line 340-341). An empty input stream models the loop being cut off
externally. -/
def managerLoop : Bool → List TickInput → List Event
  | _, [] => []
  | startedPrev, i :: rest =>
    tickEvents startedPrev i
      ++ (if anyShutdownFlag i.flags then [] else managerLoop i.started rest)

/-- Body of `manager_thread` (manager.py lines 282-341): the pre-loop
offroad param write and initial `ensure_running` call, then the loop. -/
def manager_thread (inputs : List TickInput) : List Event :=
  Event.writeOnroadParams false :: Event.ensureRunning false :: managerLoop false inputs

/-- Number of bulk-clears of category `c` in an event list. -/
def countClear (c : ParamKeyType) : List Event → Nat
  | [] => 0
  | e :: rest =>
    (match e with
     | Event.clearAll x => if x = c then 1 else 0
     | _ => 0) + countClear c rest

/-- Value held under key `k` after the put events of the list hit a store
in which the last write wins (the `params.put` semantics). -/
def lastPutValue (k : String) : List Event → Option String
  | [] => none
  | e :: rest =>
    match lastPutValue k rest with
    | some w => some w
    | none =>
      match e with
      | Event.putParam k2 v => if k2 = k then some v else none
      | _ => none

/-- Final `LastManagerExitReason` value after the shutdown-flag check of
the loop's last tick. -/
def exitReasonAfter (f : Flags) (now : String) : Option String :=
  lastPutValue "LastManagerExitReason" (shutdownEvents f now)

/-- Number of shutdown flags that read true. -/
def numSetFlags (f : Flags) : Nat :=
  ((flagList f).filter fun nb => nb.2).length

/-- Terminal host action dispatched by `main` after cleanup. -/
inductive TerminalAction where
  | uninstall
  | reboot
  | shutdown
  | noAction
  deriving DecidableEq

/-- Dispatch of the terminal action (manager.py lines 364-373): uninstall
if `DoUninstall`, otherwise reboot if `DoReboot`, otherwise shutdown if
`DoShutdown`, otherwise a plain process exit. -/
def terminalAction (f : Flags) : TerminalAction :=
  if f.doUninstall then TerminalAction.uninstall
  else if f.doReboot then TerminalAction.reboot
  else if f.doShutdown then TerminalAction.shutdown
  else TerminalAction.noAction

/-- Outcome of `manager_thread` as seen by `main`: a normal return, or an
exception — which `main` catches (manager.py lines 356-360) before the
`finally` block runs cleanup. -/
inductive ThreadOutcome where
  | ok
  | raised
  deriving DecidableEq

/-- Top-level phases of `main` (manager.py lines 344-373). -/
inductive MainEvent where
  | initDone
  | runLoop
  | cleanup
  | terminal (a : TerminalAction)
  deriving DecidableEq

/-- Terminal-action block of `main` (manager.py lines 364-373) as events:
at most one host action, or none. -/
def terminalEvents (f : Flags) : List MainEvent :=
  match terminalAction f with
  | TerminalAction.noAction => []
  | a => [MainEvent.terminal a]

/-- Control flow of `main` (manager.py lines 344-373): `manager_init`
(which may raise, yielding the empty trace beyond it), the `PREPAREONLY`
early return (lines 346-347), the loop inside try/except whose `finally`
runs `manager_cleanup`, then the terminal-action dispatch on freshly read
flags. A loop exception is caught, so both outcomes continue the same. -/
def mainEvents (initOk prepareOnly : Bool) (outcome : ThreadOutcome) (finalFlags : Flags) :
    List MainEvent :=
  if initOk then
    if prepareOnly then [MainEvent.initDone]
    else
      [MainEvent.initDone, MainEvent.runLoop, MainEvent.cleanup]
        ++ (match outcome with
            | ThreadOutcome.ok => terminalEvents finalFlags
            | ThreadOutcome.raised => terminalEvents finalFlags)
  else []

/-- Number of cleanup phases in a `main` trace. -/
def countCleanup : List MainEvent → Nat
  | [] => 0
  | e :: rest =>
    (match e with
     | MainEvent.cleanup => 1
     | _ => 0) + countCleanup rest

/-- Number of terminal host actions in a `main` trace. -/
def countTerminal : List MainEvent → Nat
  | [] => 0
  | e :: rest =>
    (match e with
     | MainEvent.terminal _ => 1
     | _ => 0) + countTerminal rest

/-- Stop calls issued by `manager_cleanup` (manager.py lines 270-279), as
`(process name, block)` pairs in call order: a non-blocking stop for every
registered process, then a blocking stop for every registered process. -/
def manager_cleanup (procs : List String) : List (String × Bool) :=
  procs.map (fun n => (n, false)) ++ procs.map (fun n => (n, true))

/-- Config store contents seen through typed get/put: an association list
in which the newest write stands first. -/
abbrev Store := List (String × String)

/-- Lookup of a key, as `params.get`. -/
def Store.get (s : Store) (k : String) : Option String := s.lookup k

/-- Write of a key, as `params.put`: the new binding shadows older ones. -/
def Store.put (s : Store) (k v : String) : Store := (k, v) :: s

/-- Boolean read, as `params.get_bool`: true exactly on a stored "1". -/
def Store.getBool (s : Store) (k : String) : Bool := Store.get s k == some "1"

/-- Modelled from the spec: the Config Store supports "bulk-clear by
category" with "category tags per key" (spec section 2); the tag
assignment itself lives outside this repository (`common/params`), so it
enters as the map `tags`. -/
def clear_all (tags : String → List ParamKeyType) (c : ParamKeyType) (s : Store) : Store :=
  s.filter fun kv => !((tags kv.1).contains c)

/-- Default-setting step of `manager_init` (manager.py lines 183-186):
walk the default table in order and write a default only when the key's
lookup returns absent. -/
def set_unset_params : List (String × String) → Store → Store
  | [], s => s
  | kv :: rest, s =>
    set_unset_params rest (if Store.get s kv.1 = none then Store.put s kv.1 kv.2 else s)

/-- Static default-parameter table of `manager_init` (manager.py lines
50-178). `frogs` is the `FrogsGoMoo` branch check of line 48;
`longPersonality` is the external cereal constant
`log.LongitudinalPersonality.standard` rendered as a string;
`lastUpdate` is the timestamp appended when not on PC (lines 177-178). -/
def default_params (frogs pc : Bool) (longPersonality lastUpdate : String) :
    List (String × String) :=
  [("CompletedTrainingVersion", if frogs then "0.2.0" else "0"),
   ("DisengageOnAccelerator", "0"),
   ("GsmMetered", if frogs then "0" else "1"),
   ("HasAcceptedTerms", if frogs then "2" else "0"),
   ("LanguageSetting", "main_en"),
   ("OpenpilotEnabledToggle", "1"),
   ("LongitudinalPersonality", longPersonality),
   ("AccelerationPath", "1"),
   ("AccelerationProfile", if frogs then "3" else "2"),
   ("AdjacentPath", if frogs then "1" else "0"),
   ("AdjacentPathMetrics", if frogs then "1" else "0"),
   ("AdjustablePersonalities", "1"),
   ("AggressiveAcceleration", "1"),
   ("AggressiveFollow", if frogs then "10" else "12"),
   ("AggressiveJerk", if frogs then "6" else "5"),
   ("AlwaysOnLateral", "1"),
   ("AlwaysOnLateralMain", if frogs then "1" else "0"),
   ("BlindSpotPath", "1"),
   ("CameraView", if frogs then "1" else "0"),
   ("CECurves", "1"),
   ("CENavigation", "1"),
   ("CESignal", "1"),
   ("CESlowerLead", "0"),
   ("CESpeed", "0"),
   ("CESpeedLead", "0"),
   ("CEStopLights", "1"),
   ("CEStopLightsLead", if frogs then "0" else "1"),
   ("Compass", if frogs then "1" else "0"),
   ("ConditionalExperimental", "1"),
   ("CurveSensitivity", if frogs then "125" else "100"),
   ("CustomColors", "1"),
   ("CustomIcons", "1"),
   ("CustomPersonalities", "1"),
   ("CustomSignals", "1"),
   ("CustomSounds", "1"),
   ("CustomTheme", "1"),
   ("CustomUI", "1"),
   ("DeviceShutdown", "9"),
   ("DriverCamera", "0"),
   ("DriveStats", "1"),
   ("EVTable", if frogs then "0" else "1"),
   ("ExperimentalModeActivation", "1"),
   ("ExperimentalModeViaLKAS", if frogs then "1" else "0"),
   ("ExperimentalModeViaScreen", if frogs then "0" else "1"),
   ("Fahrenheit", "0"),
   ("FireTheBabysitter", if frogs then "1" else "0"),
   ("FPSCounter", if frogs then "1" else "0"),
   ("FullMap", "0"),
   ("GasRegenCmd", "0"),
   ("GoatScream", "1"),
   ("GreenLightAlert", "0"),
   ("HideSpeed", "0"),
   ("HideSpeedUI", "0"),
   ("HigherBitrate", if frogs then "1" else "0"),
   ("LaneChangeTime", "0"),
   ("LaneDetection", "1"),
   ("LaneLinesWidth", "4"),
   ("LateralTune", "1"),
   ("LeadInfo", if frogs then "1" else "0"),
   ("LockDoors", "0"),
   ("LongitudinalTune", "1"),
   ("LongPitch", if frogs then "0" else "1"),
   ("LowerVolt", if frogs then "0" else "1"),
   ("MTSCAggressiveness", if frogs then "100" else "100"),
   ("Model", "0"),
   ("ModelUI", "1"),
   ("MTSCEnabled", if frogs then "0" else "1"),
   ("MuteDM", if frogs then "1" else "0"),
   ("MuteDoor", if frogs then "1" else "0"),
   ("MuteOverheated", if frogs then "1" else "0"),
   ("MuteSeatbelt", if frogs then "1" else "0"),
   ("NNFF", "1"),
   ("NoLogging", "0"),
   ("NudgelessLaneChange", "1"),
   ("NumericalTemp", if frogs then "1" else "0"),
   ("Offset1", "5"),
   ("Offset2", if frogs then "7" else "5"),
   ("Offset3", if frogs then "10" else "5"),
   ("Offset4", if frogs then "20" else "10"),
   ("OneLaneChange", "1"),
   ("PathEdgeWidth", "20"),
   ("PathWidth", "61"),
   ("PauseLateralOnSignal", "0"),
   ("PersonalitiesViaScreen", if frogs then "0" else "1"),
   ("PersonalitiesViaWheel", "1"),
   ("PreferredSchedule", "0"),
   ("QOLControls", "1"),
   ("QOLVisuals", "1"),
   ("RandomEvents", if frogs then "1" else "0"),
   ("RelaxedFollow", if frogs then "30" else "18"),
   ("RelaxedJerk", if frogs then "50" else "10"),
   ("ReverseCruise", "0"),
   ("ReverseCruiseUI", "0"),
   ("RoadEdgesWidth", "2"),
   ("RoadNameUI", "1"),
   ("RotatingWheel", "1"),
   ("ScreenBrightness", "101"),
   ("SearchInput", "0"),
   ("SetSpeedOffset", "0"),
   ("ShowCPU", if frogs then "1" else "0"),
   ("ShowGPU", "0"),
   ("ShowMemoryUsage", if frogs then "1" else "0"),
   ("Sidebar", if frogs then "1" else "0"),
   ("SilentMode", "0"),
   ("SLCFallback", "2"),
   ("SLCOverride", "1"),
   ("SLCPriority1", "1"),
   ("SLCPriority2", "2"),
   ("SLCPriority3", "3"),
   ("SmoothBraking", "1"),
   ("SNGHack", if frogs then "0" else "1"),
   ("SpeedLimitController", "1"),
   ("StandardFollow", "15"),
   ("StandardJerk", "10"),
   ("StoppingDistance", if frogs then "3" else "0"),
   ("TSS2Tune", "1"),
   ("TurnAggressiveness", if frogs then "150" else "100"),
   ("TurnDesires", if frogs then "1" else "0"),
   ("UnlimitedLength", "1"),
   ("UseSI", if frogs then "1" else "0"),
   ("UseVienna", "0"),
   ("VisionTurnControl", "1"),
   ("WheelIcon", if frogs then "1" else "3")]
  ++ (if pc then [] else [("LastUpdateTime", lastUpdate)])

/-- Modelled from the spec: a process wrapper's `prepare()`
(`ManagerProcess.prepare` of `selfdrive/manager/process.py`, a file of
this repository that is not under `src/`) pre-warms the process without
starting it, and per spec section 4.3 a pre-warm failure "must not abort
startup, only be logged"; so `prepare` is total and returns the success
flag that gets logged. -/
def prepare (prepOutcome : String → Bool) (n : String) : Bool := prepOutcome n

/-- Pre-warm step of `manager_init` (manager.py lines 263-265): call
`prepare` on every registered process in registry order, pairing each
name with its logged outcome. -/
def prewarm_all (procs : List String) (prepOutcome : String → Bool) : List (String × Bool) :=
  procs.map fun n => (n, prepare prepOutcome n)

/-- Version and branch metadata stamped by `manager_init`, sourced from
the external `system/version` helpers. -/
structure VersionInfo where
  version : String
  termsVersion : String
  trainingVersion : String
  commit : String
  branch : String
  origin : String
  isTested : Bool
  isRelease : Bool

/-- Function `manager_init` (manager.py lines 30-268) restricted to its
config-store and process-registry effects, in program order: category
clears (lines 42-46), the `RecordFrontLock` promotion (lines 180-181),
the default-setting step (lines 183-186), the legacy float-valued
`PreviousSpeedLimit` and `SLCPriority` migration (lines 188-221, flagged
by the spec as out-of-core legacy migration and kept abstract as
`legacyMigrate`), the version stamps (lines 232-239), the registration
check that raises on failure (lines 242-247), the pre-warm loop (lines
263-265) and the external FrogPilot `set_model` call (line 268, kept
abstract as `setModelStep`). Pure OS steps (time sync, bootlog, error-log
removal, `/dev/shm`, env vars, logging setup) touch neither the store nor
the registry and are not represented. -/
def manager_init (tags : String → List ParamKeyType) (vi : VersionInfo) (pc : Bool)
    (longPersonality lastUpdate : String) (legacyMigrate setModelStep : Store → Store)
    (regResult : Option String) (procs : List String) (prepOutcome : String → Bool)
    (s0 : Store) : Except String (Store × List (String × Bool)) :=
  let s := clear_all tags ParamKeyType.CLEAR_ON_MANAGER_START s0
  let s := clear_all tags ParamKeyType.CLEAR_ON_ONROAD_TRANSITION s
  let s := clear_all tags ParamKeyType.CLEAR_ON_OFFROAD_TRANSITION s
  let s := if vi.isRelease then clear_all tags ParamKeyType.DEVELOPMENT_ONLY s else s
  let frogs := vi.branch == "FrogPilot-Development"
  let s := if Store.getBool s "RecordFrontLock" then Store.put s "RecordFront" "1" else s
  let s := set_unset_params (default_params frogs pc longPersonality lastUpdate) s
  let s := legacyMigrate s
  let s := Store.put s "Version" vi.version
  let s := Store.put s "TermsVersion" vi.termsVersion
  let s := Store.put s "TrainingVersion" vi.trainingVersion
  let s := Store.put s "GitCommit" vi.commit
  let s := Store.put s "GitBranch" vi.branch
  let s := Store.put s "GitRemote" vi.origin
  let s := Store.put s "IsTestedBranch" (if vi.isTested then "1" else "0")
  let s := Store.put s "IsReleaseBranch" (if vi.isRelease then "1" else "0")
  match regResult with
  | none => Except.error "Registration failed"
  | some _ => Except.ok (setModelStep s, prewarm_all procs prepOutcome)

/-- Run condition of a managed process descriptor (spec section 3). -/
inductive RunCondition where
  | always
  | onroadOnly
  deriving DecidableEq

/-- Managed process descriptor: registry key and run condition. -/
structure ProcDesc where
  name : String
  runCondition : RunCondition

/-- Observed process states (spec section 3). -/
inductive ObservedState where
  | stopped
  | starting
  | running
  | stopping
  | crashed
  deriving DecidableEq

/-- States counting as already running for the Reconciler's start test. -/
def isRunLike : ObservedState → Bool
  | ObservedState.running => true
  | ObservedState.starting => true
  | _ => false

/-- States counting as already stopped for the Reconciler's stop test. -/
def isStopLike : ObservedState → Bool
  | ObservedState.stopped => true
  | ObservedState.stopping => true
  | _ => false

/-- Modelled from the spec: the Reconciler's desired-state computation
(realised by `ensure_running` in `selfdrive/manager/process.py`, a file of
this repository not under `src/`): "ALWAYS processes run unless in
ignore_set; ONROAD_ONLY processes run iff operating_mode == ONROAD and not
in ignore_set" (spec section 4.2). -/
def desired_state (c : RunCondition) (onroad : Bool) (ignore : List String) (n : String) :
    Bool :=
  !(ignore.contains n) &&
    (match c with
     | RunCondition.always => true
     | RunCondition.onroadOnly => onroad)

/-- Actions a Reconciler invocation can issue. -/
inductive Action where
  | start (n : String)
  | stop (n : String)
  deriving DecidableEq

/-- Observed process state per name. -/
abbrev ObsMap := String → ObservedState

/-- Pointwise update of an observed-state map. -/
def setObs (m : ObsMap) (n : String) (st : ObservedState) : ObsMap :=
  fun k => if k = n then st else m k

/-- Modelled from the spec: the Reconciler `ensure_running`
(`selfdrive/manager/process.py`, not under `src/`), per spec section 4.2:
in registry order, a desired process whose observed state is not
RUNNING/STARTING gets a start action (and becomes STARTING), and an
undesired process whose observed state is not STOPPED/STOPPING gets a
non-blocking stop action (and becomes STOPPING). Returns the issued
actions in order together with the resulting observed states. -/
def ensure_running (onroad : Bool) (ignore : List String) :
    List ProcDesc → ObsMap → List Action × ObsMap
  | [], m => ([], m)
  | p :: rest, m =>
    if desired_state p.runCondition onroad ignore p.name then
      if isRunLike (m p.name) then ensure_running onroad ignore rest m
      else
        let r := ensure_running onroad ignore rest (setObs m p.name ObservedState.starting)
        (Action.start p.name :: r.1, r.2)
    else
      if isStopLike (m p.name) then ensure_running onroad ignore rest m
      else
        let r := ensure_running onroad ignore rest (setObs m p.name ObservedState.stopping)
        (Action.stop p.name :: r.1, r.2)

/-- Settled means the observed state already agrees with the desired
state, so the Reconciler has nothing to issue for this process. -/
def settled (onroad : Bool) (ignore : List String) (m : ObsMap) (p : ProcDesc) : Bool :=
  if desired_state p.runCondition onroad ignore p.name then isRunLike (m p.name)
  else isStopLike (m p.name)

/-! Helper lemmas. -/

theorem countClear_append (c : ParamKeyType) (a b : List Event) :
    countClear c (a ++ b) = countClear c a + countClear c b := by
  induction a with
  | nil => simp [countClear]
  | cons e rest ih => simp [countClear, ih]; omega

theorem countClear_shutdownEvents (c : ParamKeyType) (f : Flags) (now : String) :
    countClear c (shutdownEvents f now) = 0 := by
  obtain ⟨u, s, r⟩ := f
  cases u <;> cases s <;> cases r <;>
    simp [shutdownEvents, flagList, countClear]

theorem clearAll_not_mem_shutdownEvents (c : ParamKeyType) (f : Flags) (now : String) :
    Event.clearAll c ∉ shutdownEvents f now := by
  obtain ⟨u, s, r⟩ := f
  cases u <;> cases s <;> cases r <;>
    simp [shutdownEvents, flagList]

theorem sendManagerState_not_mem_shutdownEvents (f : Flags) (now : String) :
    Event.sendManagerState ∉ shutdownEvents f now := by
  obtain ⟨u, s, r⟩ := f
  cases u <;> cases s <;> cases r <;>
    simp [shutdownEvents, flagList]

theorem ensureRunning_not_mem_transitionEvents (s startedPrev started : Bool) :
    Event.ensureRunning s ∉ transitionEvents startedPrev started := by
  cases startedPrev <;> cases started <;> simp [transitionEvents]

theorem sendManagerState_not_mem_transitionEvents (startedPrev started : Bool) :
    Event.sendManagerState ∉ transitionEvents startedPrev started := by
  cases startedPrev <;> cases started <;> simp [transitionEvents]

theorem mem_shutdownEvents_of_setFlag (f : Flags) (now n : String)
    (hn : n ∈ setFlagNames f) :
    Event.putParam "LastManagerExitReason" (n ++ " " ++ now) ∈ shutdownEvents f now := by
  obtain ⟨u, s, r⟩ := f
  cases u <;> cases s <;> cases r <;>
    simp [setFlagNames, flagList] at hn <;>
    rcases hn with rfl | rfl | rfl <;>
    simp [shutdownEvents, flagList]

theorem countCleanup_append (a b : List MainEvent) :
    countCleanup (a ++ b) = countCleanup a + countCleanup b := by
  induction a with
  | nil => simp [countCleanup]
  | cons e rest ih => simp [countCleanup, ih]; omega

theorem countCleanup_terminalEvents (f : Flags) :
    countCleanup (terminalEvents f) = 0 := by
  unfold terminalEvents
  cases terminalAction f <;> simp [countCleanup]

theorem Store.get_put (s : Store) (a b k : String) :
    Store.get (Store.put s a b) k = if k = a then some b else Store.get s k := by
  simp only [Store.get, Store.put, List.lookup]
  split
  · next h => simp [beq_iff_eq] at h; simp [h]
  · next h => simp [beq_iff_eq] at h; simp [h]

theorem set_unset_preserve (table : List (String × String)) (s : Store) (k v : String)
    (h : Store.get s k = some v) :
    Store.get (set_unset_params table s) k = some v := by
  induction table generalizing s with
  | nil => exact h
  | cons kv rest ih =>
    simp only [set_unset_params]
    split
    · next habs =>
      apply ih
      rw [Store.get_put]
      have hne : k ≠ kv.1 := by
        intro he; rw [he, habs] at h; exact Option.noConfusion h
      simp [hne, h]
    · exact ih s h

theorem set_unset_writes (table : List (String × String)) (s : Store) (k : String)
    (h1 : Store.get s k = none) (h2 : k ∈ table.map Prod.fst) :
    ∃ v, (k, v) ∈ table ∧ Store.get (set_unset_params table s) k = some v := by
  induction table generalizing s with
  | nil => simp at h2
  | cons kv rest ih =>
    obtain ⟨a, b⟩ := kv
    by_cases hk : k = a
    · subst hk
      refine ⟨b, List.mem_cons_self _ _, ?_⟩
      simp only [set_unset_params, h1, if_pos]
      apply set_unset_preserve
      rw [Store.get_put]
      simp
    · have h2r : k ∈ rest.map Prod.fst := by
        simp at h2
        rcases h2 with h2 | h2
        · exact absurd h2 hk
        · simpa using h2
      simp only [set_unset_params]
      split
      · next habs =>
        have h1h : Store.get (Store.put s a b) k = none := by
          rw [Store.get_put]; simp [hk, h1]
        obtain ⟨v, hv1, hv2⟩ := ih (Store.put s a b) h1h h2r
        exact ⟨v, List.mem_cons_of_mem _ hv1, hv2⟩
      · obtain ⟨v, hv1, hv2⟩ := ih s h1 h2r
        exact ⟨v, List.mem_cons_of_mem _ hv1, hv2⟩

theorem ensure_running_frame (onroad : Bool) (ignore : List String)
    (procs : List ProcDesc) (m : ObsMap) (n : String)
    (h : n ∉ procs.map ProcDesc.name) :
    (ensure_running onroad ignore procs m).2 n = m n := by
  induction procs generalizing m with
  | nil => rfl
  | cons p rest ih =>
    simp only [List.map_cons, List.mem_cons] at h
    push_neg at h
    obtain ⟨hne, hrest⟩ := h
    have hset : ∀ st, setObs m p.name st n = m n := by
      intro st; simp [setObs, hne]
    simp only [ensure_running]
    split
    · split
      · exact ih m hrest
      · simpa [ih _ hrest] using hset ObservedState.starting
    · split
      · exact ih m hrest
      · simpa [ih _ hrest] using hset ObservedState.stopping

theorem ensure_running_settles (onroad : Bool) (ignore : List String)
    (procs : List ProcDesc) (m : ObsMap)
    (hnd : (procs.map ProcDesc.name).Nodup) :
    ∀ p ∈ procs, settled onroad ignore (ensure_running onroad ignore procs m).2 p = true := by
  induction procs generalizing m with
  | nil => intro p hp; simp at hp
  | cons q rest ih =>
    simp only [List.map_cons, List.nodup_cons] at hnd
    obtain ⟨hqn, hrest⟩ := hnd
    intro p hp
    rcases List.mem_cons.mp hp with rfl | hpr
    · simp only [ensure_running]
      split
      · next hd =>
        split
        · next hr =>
          have := ensure_running_frame onroad ignore rest m p.name hqn
          simp [settled, hd, this, hr]
        · have := ensure_running_frame onroad ignore rest
            (setObs m p.name ObservedState.starting) p.name hqn
          simp [settled, hd, this, setObs, isRunLike]
      · next hd =>
        split
        · next hs =>
          have := ensure_running_frame onroad ignore rest m p.name hqn
          simp [settled, hd, this, hs]
        · have := ensure_running_frame onroad ignore rest
            (setObs m p.name ObservedState.stopping) p.name hqn
          simp [settled, hd, this, setObs, isStopLike]
    · simp only [ensure_running]
      split
      · split
        · exact ih m hrest p hpr
        · exact ih _ hrest p hpr
      · split
        · exact ih m hrest p hpr
        · exact ih _ hrest p hpr

theorem ensure_running_noop (onroad : Bool) (ignore : List String)
    (procs : List ProcDesc) (m : ObsMap)
    (h : ∀ p ∈ procs, settled onroad ignore m p = true) :
    ensure_running onroad ignore procs m = ([], m) := by
  induction procs with
  | nil => rfl
  | cons q rest ih =>
    have hq := h q (List.mem_cons_self q rest)
    have hrest : ∀ p ∈ rest, settled onroad ignore m p = true :=
      fun p hp => h p (List.mem_cons_of_mem q hp)
    simp only [settled] at hq
    simp only [ensure_running]
    split
    · next hd =>
      rw [if_pos hd] at hq
      rw [if_pos hq]
      exact ih hrest
    · next hd =>
      rw [if_neg hd] at hq
      rw [if_pos hq]
      exact ih hrest

/-! Claim theorems. -/

/-- C1: during initialization every registered process is pre-warmed (its
prepare is called without starting it), and a failure of any individual
pre-warm does not abort initialization: with registration succeeding,
`manager_init` completes with an ok result for every pre-warm outcome
function (including all-failing ones), and the pre-warm log holds an entry
for every registered process. -/
theorem C1_prewarm_never_aborts (tags : String → List ParamKeyType) (vi : VersionInfo)
    (pc : Bool) (longPersonality lastUpdate : String)
    (legacyMigrate setModelStep : Store → Store) (dongleId : String)
    (procs : List String) (prepOutcome : String → Bool) (s0 : Store) :
    ∃ s, manager_init tags vi pc longPersonality lastUpdate legacyMigrate setModelStep
        (some dongleId) procs prepOutcome s0 = Except.ok (s, prewarm_all procs prepOutcome) ∧
      ∀ n ∈ procs, (n, prepare prepOutcome n) ∈ prewarm_all procs prepOutcome := by
  refine ⟨_, rfl, ?_⟩
  intro n hn
  exact List.mem_map_of_mem _ hn

/-- C1 witness: with every pre-warm failing, `manager_init` still returns
ok and both processes are in the pre-warm log. -/
theorem C1_witness :
    ∃ s, manager_init (fun _ => []) ⟨"v", "t", "tr", "c", "b", "o", false, false⟩ true
        "1" "u" id id (some "d") ["ui", "pandad"] (fun _ => false) [] =
        Except.ok (s, prewarm_all ["ui", "pandad"] (fun _ => false)) ∧
      ∀ n ∈ ["ui", "pandad"],
        (n, prepare (fun _ => false) n) ∈ prewarm_all ["ui", "pandad"] (fun _ => false) :=
  C1_prewarm_never_aborts (fun _ => []) ⟨"v", "t", "tr", "c", "b", "o", false, false⟩ true
    "1" "u" id id "d" ["ui", "pandad"] (fun _ => false) []

/-- C2 counterexample: the claim says cleanup runs in every execution in
which initialization completes, but with the PREPAREONLY environment
variable set, `main` returns right after `manager_init` (manager.py lines
346-347): initialization completed yet the trace holds zero cleanups. -/
theorem C2_counterexample :
    MainEvent.initDone ∈ mainEvents true true ThreadOutcome.ok ⟨false, false, false⟩ ∧
    countCleanup (mainEvents true true ThreadOutcome.ok ⟨false, false, false⟩) = 0 := by
  decide

/-- C2 (amended): for every execution in which initialization completes
and PREPAREONLY is not set, the cleanup phase runs exactly once before the
program exits — also when the supervisor loop ends in an exception — and
cleanup first issues a non-blocking stop to every registered process and
then a blocking stop to every registered process. -/
theorem C2_cleanup_exactly_once (outcome : ThreadOutcome) (f : Flags)
    (procs : List String) :
    countCleanup (mainEvents true false outcome f) = 1 ∧
    ∃ l1 l2, manager_cleanup procs = l1 ++ l2 ∧
      (∀ e ∈ l1, e.2 = false) ∧ (∀ e ∈ l2, e.2 = true) ∧
      ∀ p ∈ procs, (p, false) ∈ l1 ∧ (p, true) ∈ l2 := by
  constructor
  · cases outcome <;>
      simp [mainEvents, countCleanup_append, countCleanup, countCleanup_terminalEvents]
  · refine ⟨procs.map (fun n => (n, false)), procs.map (fun n => (n, true)), rfl, ?_, ?_, ?_⟩
    · intro e he
      obtain ⟨n, _, rfl⟩ := List.mem_map.mp he
      rfl
    · intro e he
      obtain ⟨n, _, rfl⟩ := List.mem_map.mp he
      rfl
    · intro p hp
      exact ⟨List.mem_map_of_mem _ hp, List.mem_map_of_mem _ hp⟩

/-- C2 witness: a run whose loop raised still cleans up exactly once, and
the cleanup of processes a, b is both stop passes in order. -/
theorem C2_witness :
    countCleanup (mainEvents true false ThreadOutcome.raised ⟨false, false, true⟩) = 1 ∧
    ∃ l1 l2, manager_cleanup ["a", "b"] = l1 ++ l2 ∧
      (∀ e ∈ l1, e.2 = false) ∧ (∀ e ∈ l2, e.2 = true) ∧
      ∀ p ∈ ["a", "b"], (p, false) ∈ l1 ∧ (p, true) ∈ l2 :=
  C2_cleanup_exactly_once ThreadOutcome.raised ⟨false, false, true⟩ ["a", "b"]

/-- C3: in every tick, a rising edge of `started` performs exactly one
bulk-clear of the onroad-transition category and none of the
offroad-transition category; a falling edge is the mirror image; and with
no edge neither category is cleared. -/
theorem C3_edge_transition_clears (startedPrev : Bool) (i : TickInput) :
    (i.started = true → startedPrev = false →
      countClear ParamKeyType.CLEAR_ON_ONROAD_TRANSITION (tickEvents startedPrev i) = 1 ∧
      countClear ParamKeyType.CLEAR_ON_OFFROAD_TRANSITION (tickEvents startedPrev i) = 0) ∧
    (i.started = false → startedPrev = true →
      countClear ParamKeyType.CLEAR_ON_OFFROAD_TRANSITION (tickEvents startedPrev i) = 1 ∧
      countClear ParamKeyType.CLEAR_ON_ONROAD_TRANSITION (tickEvents startedPrev i) = 0) ∧
    (i.started = startedPrev →
      countClear ParamKeyType.CLEAR_ON_ONROAD_TRANSITION (tickEvents startedPrev i) = 0 ∧
      countClear ParamKeyType.CLEAR_ON_OFFROAD_TRANSITION (tickEvents startedPrev i) = 0) := by
  obtain ⟨st, f, now⟩ := i
  cases st <;> cases startedPrev <;>
    simp [tickEvents, transitionEvents, countClear_append, countClear,
      countClear_shutdownEvents]

/-- C3 witness: the rising-edge case at a concrete tick input. -/
theorem C3_witness :
    countClear ParamKeyType.CLEAR_ON_ONROAD_TRANSITION
      (tickEvents false ⟨true, ⟨false, false, false⟩, "t"⟩) = 1 ∧
    countClear ParamKeyType.CLEAR_ON_OFFROAD_TRANSITION
      (tickEvents false ⟨true, ⟨false, false, false⟩, "t"⟩) = 0 :=
  (C3_edge_transition_clears false ⟨true, ⟨false, false, false⟩, "t"⟩).1 rfl rfl

/-- C4: in every tick, each shutdown flag that reads true causes a write
of `LastManagerExitReason` holding that flag's name and the timestamp, and
the loop ends with that tick's events (no further tick begins); when no
flag reads true the loop continues into the remaining ticks. -/
theorem C4_shutdown_intent (startedPrev : Bool) (i : TickInput) (rest : List TickInput) :
    (anyShutdownFlag i.flags = true →
      managerLoop startedPrev (i :: rest) = tickEvents startedPrev i ∧
      ∀ n ∈ setFlagNames i.flags,
        Event.putParam "LastManagerExitReason" (n ++ " " ++ i.now) ∈
          tickEvents startedPrev i) ∧
    (anyShutdownFlag i.flags = false →
      managerLoop startedPrev (i :: rest) =
        tickEvents startedPrev i ++ managerLoop i.started rest) := by
  constructor
  · intro h
    constructor
    · simp [managerLoop, h]
    · intro n hn
      have hmem := mem_shutdownEvents_of_setFlag i.flags i.now n hn
      simp [tickEvents, hmem]
  · intro h
    simp [managerLoop, h]

/-- C4 witness: a tick with `DoReboot` set ends the loop with its own
events, containing the `LastManagerExitReason` write naming `DoReboot`. -/
theorem C4_witness :
    managerLoop false [⟨true, ⟨false, false, true⟩, "t"⟩] =
      tickEvents false ⟨true, ⟨false, false, true⟩, "t"⟩ ∧
    Event.putParam "LastManagerExitReason" ("DoReboot" ++ " " ++ "t") ∈
      tickEvents false ⟨true, ⟨false, false, true⟩, "t"⟩ := by
  have h := (C4_shutdown_intent false ⟨true, ⟨false, false, true⟩, "t"⟩ []).1 rfl
  exact ⟨h.1, h.2 "DoReboot" (by decide)⟩

/-- C5: within every tick, the mode-transition category clears (if any)
all stand before the `ensure_running` invocation, which stands immediately
before the tick's single `managerState` health emission: no health message
is emitted before that tick's reconciliation attempt. -/
theorem C5_tick_ordering (startedPrev : Bool) (i : TickInput) :
    ∃ pre post,
      tickEvents startedPrev i =
        pre ++ Event.ensureRunning i.started :: Event.sendManagerState :: post ∧
      (∀ c, Event.clearAll c ∈ tickEvents startedPrev i → Event.clearAll c ∈ pre) ∧
      Event.sendManagerState ∉ pre ∧
      Event.ensureRunning i.started ∉ pre ∧
      Event.sendManagerState ∉ post := by
  refine ⟨transitionEvents startedPrev i.started, shutdownEvents i.flags i.now,
    ?_, ?_, ?_, ?_, ?_⟩
  · simp [tickEvents]
  · intro c hc
    simp only [tickEvents, List.append_assoc, List.cons_append, List.nil_append,
      List.mem_append, List.mem_cons] at hc
    rcases hc with hc | hc | hc | hc
    · exact hc
    · exact absurd hc (by simp)
    · exact absurd hc (by simp)
    · exact absurd hc (clearAll_not_mem_shutdownEvents c i.flags i.now)
  · exact sendManagerState_not_mem_transitionEvents startedPrev i.started
  · exact ensureRunning_not_mem_transitionEvents i.started startedPrev i.started
  · exact sendManagerState_not_mem_shutdownEvents i.flags i.now

/-- C5 witness: the ordering decomposition at a concrete tick input. -/
theorem C5_witness :
    ∃ pre post,
      tickEvents false ⟨true, ⟨true, false, false⟩, "t"⟩ =
        pre ++ Event.ensureRunning true :: Event.sendManagerState :: post ∧
      (∀ c, Event.clearAll c ∈ tickEvents false ⟨true, ⟨true, false, false⟩, "t"⟩ →
        Event.clearAll c ∈ pre) ∧
      Event.sendManagerState ∉ pre ∧
      Event.ensureRunning true ∉ pre ∧
      Event.sendManagerState ∉ post :=
  C5_tick_ordering false ⟨true, ⟨true, false, false⟩, "t"⟩

/-- C6: a process with run condition ALWAYS has desired state running iff
its name is not in the ignore set; a process with run condition
ONROAD_ONLY has desired state running iff the mode is onroad and its name
is not in the ignore set; any process in the ignore set has desired state
stopped regardless of mode. -/
theorem C6_desired_state (p : ProcDesc) (onroad : Bool) (ignore : List String) :
    (p.runCondition = RunCondition.always →
      (desired_state p.runCondition onroad ignore p.name = true ↔ p.name ∉ ignore)) ∧
    (p.runCondition = RunCondition.onroadOnly →
      (desired_state p.runCondition onroad ignore p.name = true ↔
        onroad = true ∧ p.name ∉ ignore)) ∧
    (p.name ∈ ignore → desired_state p.runCondition onroad ignore p.name = false) := by
  refine ⟨?_, ?_, ?_⟩
  · intro h
    simp [desired_state, h]
  · intro h
    simp [desired_state, h, and_comm]
  · intro h
    cases hc : p.runCondition <;> simp [desired_state, hc, h]

/-- C6 witness: an ignored ONROAD_ONLY process stays stopped even onroad,
and an ALWAYS process outside the ignore set is running. -/
theorem C6_witness :
    desired_state RunCondition.onroadOnly true ["b"] "b" = false :=
  (C6_desired_state ⟨"b", RunCondition.onroadOnly⟩ true ["b"]).2.2 (by decide)

/-- C7: the Reconciler is idempotent: for a registry with distinct process
names, any mode and any ignore set, a second invocation on the observed
states left by the first issues zero start and zero stop actions. -/
theorem C7_reconciler_idempotent (onroad : Bool) (ignore : List String)
    (procs : List ProcDesc) (m : ObsMap)
    (h : (procs.map ProcDesc.name).Nodup) :
    (ensure_running onroad ignore procs (ensure_running onroad ignore procs m).2).1 = [] := by
  have hs := ensure_running_settles onroad ignore procs m h
  rw [ensure_running_noop onroad ignore procs _ hs]

/-- C7 witness: a two-process registry, starting from all-stopped states,
issues nothing on the second invocation. -/
theorem C7_witness :
    (ensure_running true [] [⟨"a", RunCondition.always⟩, ⟨"b", RunCondition.onroadOnly⟩]
      (ensure_running true [] [⟨"a", RunCondition.always⟩, ⟨"b", RunCondition.onroadOnly⟩]
        (fun _ => ObservedState.stopped)).2).1 = [] :=
  C7_reconciler_idempotent true [] [⟨"a", RunCondition.always⟩, ⟨"b", RunCondition.onroadOnly⟩]
    (fun _ => ObservedState.stopped) (by decide)

/-- C8: at most one terminal host action is performed per run; in any run
that reaches cleanup, the dispatch on the finally read flags prefers
uninstall on `DoUninstall`, otherwise reboot on `DoReboot`, otherwise
shutdown on `DoShutdown`, and performs no terminal action when none of
the three flags is true. -/
theorem C8_terminal_dispatch (initOk prepareOnly : Bool) (outcome : ThreadOutcome)
    (f : Flags) :
    countTerminal (mainEvents initOk prepareOnly outcome f) ≤ 1 ∧
    (MainEvent.cleanup ∈ mainEvents initOk prepareOnly outcome f →
      (f.doUninstall = true →
        MainEvent.terminal TerminalAction.uninstall ∈
          mainEvents initOk prepareOnly outcome f) ∧
      (f.doUninstall = false → f.doReboot = true →
        MainEvent.terminal TerminalAction.reboot ∈
          mainEvents initOk prepareOnly outcome f) ∧
      (f.doUninstall = false → f.doReboot = false → f.doShutdown = true →
        MainEvent.terminal TerminalAction.shutdown ∈
          mainEvents initOk prepareOnly outcome f) ∧
      (f.doUninstall = false → f.doReboot = false → f.doShutdown = false →
        countTerminal (mainEvents initOk prepareOnly outcome f) = 0)) := by
  obtain ⟨u, s, r⟩ := f
  cases initOk <;> cases prepareOnly <;> cases outcome <;>
    cases u <;> cases s <;> cases r <;> decide

/-- C8 witness: with `DoShutdown` and `DoReboot` both set, the performed
terminal action is reboot. -/
theorem C8_witness :
    MainEvent.terminal TerminalAction.reboot ∈
      mainEvents true false ThreadOutcome.ok ⟨false, true, true⟩ :=
  ((C8_terminal_dispatch true false ThreadOutcome.ok ⟨false, true, true⟩).2
    (by decide)).2.1 rfl rfl

/-- C9: the default-setting step of `manager_init` never overwrites an
existing value: any key the store already holds keeps its value across the
step, and a key of the default table whose lookup returns absent ends up
holding a default value from the table. -/
theorem C9_defaults_preserve (frogs pc : Bool) (longPersonality lastUpdate : String)
    (s : Store) (k : String) :
    (∀ v, Store.get s k = some v →
      Store.get (set_unset_params (default_params frogs pc longPersonality lastUpdate) s) k
        = some v) ∧
    (Store.get s k = none →
      k ∈ (default_params frogs pc longPersonality lastUpdate).map Prod.fst →
      ∃ v, (k, v) ∈ default_params frogs pc longPersonality lastUpdate ∧
        Store.get (set_unset_params (default_params frogs pc longPersonality lastUpdate) s) k
          = some v) :=
  ⟨fun _ h => set_unset_preserve _ _ _ _ h,
   fun h1 h2 => set_unset_writes _ _ _ h1 h2⟩

/-- C9 witness: a pre-existing `Model = 5` survives the default-setting
step, and an absent `Fahrenheit` receives a table default. -/
theorem C9_witness :
    Store.get (set_unset_params (default_params false true "1" "u") [("Model", "5")])
      "Model" = some "5" ∧
    ∃ v, ("Fahrenheit", v) ∈ default_params false true "1" "u" ∧
      Store.get (set_unset_params (default_params false true "1" "u") [])
        "Fahrenheit" = some v :=
  ⟨(C9_defaults_preserve false true "1" "u" [("Model", "5")] "Model").1 "5" rfl,
   (C9_defaults_preserve false true "1" "u" [] "Fahrenheit").2 rfl (by decide)⟩

/-- C10: when at least two shutdown flags are set in the loop's last tick,
`LastManagerExitReason` is written once per set flag in the fixed order
DoUninstall, DoShutdown, DoReboot, so its final value names the last set
flag in that order (DoReboot when set, else DoShutdown), while the
terminal dispatch prefers DoUninstall and then DoReboot — so the recorded
reason can differ from the action performed. -/
theorem C10_exit_reason_order (f : Flags) (now : String) (h : 2 ≤ numSetFlags f) :
    shutdownEvents f now =
      (setFlagNames f).map
        (fun n => Event.putParam "LastManagerExitReason" (n ++ " " ++ now)) ∧
    exitReasonAfter f now =
      some ((if f.doReboot = true then "DoReboot" else "DoShutdown") ++ " " ++ now) ∧
    (f.doUninstall = true → terminalAction f = TerminalAction.uninstall) ∧
    (f.doUninstall = false → terminalAction f = TerminalAction.reboot) := by
  obtain ⟨u, s, r⟩ := f
  cases u <;> cases s <;> cases r <;>
    first
    | exact absurd h (by decide)
    | (refine ⟨?_, ?_, ?_, ?_⟩ <;>
        simp [shutdownEvents, setFlagNames, flagList, exitReasonAfter, lastPutValue,
          terminalAction])

/-- C10 witness: with `DoUninstall` and `DoShutdown` set, the recorded
exit reason names DoShutdown although the performed action is uninstall. -/
theorem C10_witness :
    2 ≤ numSetFlags ⟨true, true, false⟩ ∧
    exitReasonAfter ⟨true, true, false⟩ "t" = some ("DoShutdown" ++ " " ++ "t") ∧
    terminalAction ⟨true, true, false⟩ = TerminalAction.uninstall := by
  have h := C10_exit_reason_order ⟨true, true, false⟩ "t" (by decide)
  exact ⟨by decide, h.2.1, h.2.2.1 rfl⟩

end Manager
